import Mathlib

/-!
Verification development for the PSH host daemon.

The Rust sources are shallowly embedded:
* strings are Lean `String`s, manipulated through their `List Char` data
  (Rust `trim`/`split` restricted to the ASCII whitespace that occurs in
  `/proc` text);
* machine integers are `Nat` with explicit bounds where Rust parsing
  rejects overflow, and explicit `% 2 ^ w` where Rust `as` casts truncate;
* `f32`/`f64` fields hold plain decimal literals in all inputs considered
  here, so they are represented exactly as rationals (`ℚ`), and the
  float parser is modelled for such plain decimal literals;
* fallible reads (`io::Result` obtained from the filesystem) are `Option`
  parameters, and a Rust panic (`unwrap` on a failed read) is the `none`
  result of the embedded function;
* the two-level result at the guest/host boundary
  (`wasmtime::Result<Result<A, String>>`) is `Option (Except String A)`:
  `none` is the outer host-infrastructure failure, `some (.error e)` the
  inner domain error, `some (.ok v)` full success.
-/

/-! ## ASCII string helpers (Rust `str` operations used by the parsers) -/

/-- ASCII whitespace, the only whitespace occurring in `/proc` text;
stands in for Rust `char::is_whitespace` on these inputs. -/
def isAsciiWhitespace (c : Char) : Bool :=
  c = ' ' || c = '\t' || c = '\n' || c = '\r'

/-- Drop leading whitespace (Rust `str::trim_start`). -/
def trimLeft : List Char → List Char
  | [] => []
  | c :: cs => if isAsciiWhitespace c then trimLeft cs else c :: cs

/-- Drop trailing whitespace (Rust `str::trim_end`). -/
def trimRight (cs : List Char) : List Char :=
  (trimLeft cs.reverse).reverse

/-- Rust `str::trim`. -/
def trimChars (cs : List Char) : List Char :=
  trimRight (trimLeft cs)

/-- Rust `str::split_once(sep)`: split at the first occurrence of `sep`,
returning the parts before and after it, or `none` if absent. -/
def splitOnceChar (sep : Char) : List Char → Option (List Char × List Char)
  | [] => none
  | c :: cs =>
    if c = sep then some ([], cs)
    else (splitOnceChar sep cs).map (fun p => (c :: p.1, p.2))

/-- Rust `str::split(sep)` for a one-character pattern: keeps empty
segments between consecutive separators. -/
def splitChar (sep : Char) : List Char → List (List Char)
  | [] => [[]]
  | c :: cs =>
    if c = sep then [] :: splitChar sep cs
    else
      match splitChar sep cs with
      | [] => [[c]]
      | g :: gs => (c :: g) :: gs

/-- Helper for `splitAsciiWhitespace`: `cur` is the word being read
(in reverse). -/
def splitAsciiWsAux : List Char → List Char → List (List Char)
  | [], cur => if cur.isEmpty then [] else [cur.reverse]
  | c :: cs, cur =>
    if isAsciiWhitespace c then
      if cur.isEmpty then splitAsciiWsAux cs []
      else cur.reverse :: splitAsciiWsAux cs []
    else splitAsciiWsAux cs (c :: cur)

/-- Rust `str::split_ascii_whitespace`: words separated by whitespace
runs, no empty segments. -/
def splitAsciiWhitespace (cs : List Char) : List (List Char) :=
  splitAsciiWsAux cs []

/-- Value of an ASCII decimal digit. -/
def digitVal? (c : Char) : Option Nat :=
  if '0' ≤ c ∧ c ≤ '9' then some (c.toNat - '0'.toNat) else none

/-- Accumulating decimal parse over the remaining characters; fails on a
non-digit. -/
def parseDigitsAux : List Char → Nat → Option Nat
  | [], acc => some acc
  | c :: cs, acc =>
    match digitVal? c with
    | none => none
    | some d => parseDigitsAux cs (acc * 10 + d)

/-- One or more decimal digits (the digit part of Rust integer parsing). -/
def parseDigits? : List Char → Option Nat
  | [] => none
  | cs => parseDigitsAux cs 0

/-- Rust `str::parse::<uN>()`: an optional `+` sign, then one or more
decimal digits, rejecting values `≥ bound` (overflow of the `N`-bit
unsigned type). -/
def parseUnsigned? (bound : Nat) (cs : List Char) : Option Nat :=
  let body := match cs with
    | '+' :: rest => rest
    | other => other
  match parseDigits? body with
  | none => none
  | some n => if n < bound then some n else none

/-- Value of an ASCII hexadecimal digit. -/
def hexDigitVal? (c : Char) : Option Nat :=
  if '0' ≤ c ∧ c ≤ '9' then some (c.toNat - '0'.toNat)
  else if 'a' ≤ c ∧ c ≤ 'f' then some (c.toNat - 'a'.toNat + 10)
  else if 'A' ≤ c ∧ c ≤ 'F' then some (c.toNat - 'A'.toNat + 10)
  else none

/-- Accumulating hexadecimal parse. -/
def parseHexAux : List Char → Nat → Option Nat
  | [], acc => some acc
  | c :: cs, acc =>
    match hexDigitVal? c with
    | none => none
    | some d => parseHexAux cs (acc * 16 + d)

/-- One or more hexadecimal digits. -/
def parseHexDigits? : List Char → Option Nat
  | [] => none
  | cs => parseHexAux cs 0

/-- Rust `uN::from_str_radix(s, 16)`: optional `+` sign, one or more hex
digits, rejecting overflow of the `N`-bit type. -/
def parseHexUnsigned? (bound : Nat) (cs : List Char) : Option Nat :=
  let body := match cs with
    | '+' :: rest => rest
    | other => other
  match parseHexDigits? body with
  | none => none
  | some n => if n < bound then some n else none

/-- Rust `str::trim_start_matches("0x")`: repeatedly strip a leading
`0x`. -/
def trimStartMatches0x : List Char → List Char
  | '0' :: 'x' :: rest => trimStartMatches0x rest
  | cs => cs

/-- Fraction part of a decimal literal: digits after the point, with
their count. -/
def parseFracAux : List Char → Nat → Nat → Option (Nat × Nat)
  | [], acc, k => some (acc, k)
  | c :: cs, acc, k =>
    match digitVal? c with
    | none => none
    | some d => parseFracAux cs (acc * 10 + d) (k + 1)

/-- Rust `str::parse::<f32>()`, modelled for the plain decimal literals
(`[+-]?digits[.digits]`) that occur in `/proc/cpuinfo`; the value is
represented exactly as a rational. -/
def parseFloat? (cs : List Char) : Option ℚ :=
  let signed : Bool × List Char := match cs with
    | '-' :: rest => (true, rest)
    | '+' :: rest => (false, rest)
    | other => (false, other)
  match splitOnceChar '.' signed.2 with
  | none =>
    match parseDigits? signed.2 with
    | none => none
    | some n => some (if signed.1 then -(mkRat n 1) else mkRat n 1)
  | some (intPart, fracPart) =>
    match parseDigits? intPart, parseFracAux fracPart 0 0 with
    | some n, some (f, k) =>
      let q : ℚ := mkRat (n * 10 ^ k + f) (10 ^ k)
      some (if signed.1 then -q else q)
    | _, _ => none

/-! ## CPU data model (`crates/psh-system/src/cpu`)

The `AddressSizes`, `TlbSize`, `Arm64CpuInfo` and `X86_64CpuInfo` struct
declarations live in `crates/psh-system/src/cpu/mod.rs`, which is not
among the provided sources; their fields and widths are reconstructed
from the field accesses in `cpu/raw.rs` and the conversions in
`src/op/mod.rs` (`usize`/`u64` fields as `Nat` bounded by `2 ^ 64`,
`u32` by `2 ^ 32`, `u16` by `2 ^ 16`, `u8` by `2 ^ 8`), and `new()`
yields zero/empty defaults. -/

structure AddressSizes where
  phy : Nat
  virt : Nat
  deriving DecidableEq, Repr

structure TlbSize where
  count : Nat
  unit : Nat
  deriving DecidableEq, Repr

structure Arm64CpuInfo where
  processor : Nat
  bogomips : ℚ
  features : List String
  cpu_implementer : Nat
  cpu_architecture : Nat
  cpu_variant : Nat
  cpu_part : Nat
  cpu_revision : Nat
  address_sizes : AddressSizes
  deriving DecidableEq, Repr

/-- `Arm64CpuInfo::new()`: zero/empty defaults. -/
def Arm64CpuInfo.new : Arm64CpuInfo :=
  { processor := 0, bogomips := 0, features := [], cpu_implementer := 0
    cpu_architecture := 0, cpu_variant := 0, cpu_part := 0
    cpu_revision := 0, address_sizes := { phy := 0, virt := 0 } }

structure X86_64CpuInfo where
  processor : Nat
  vendor_id : String
  model_name : String
  cpu_family : Nat
  model : Nat
  stepping : Nat
  microcode : String
  cpu_mhz : ℚ
  cache_size : Nat
  physical_id : Nat
  siblings : Nat
  core_id : Nat
  cpu_cores : Nat
  apicid : Nat
  initial_apicid : Nat
  fpu : Bool
  fpu_exception : Bool
  cpuid_level : Nat
  wp : Bool
  flags : List String
  bugs : List String
  bogomips : ℚ
  tlb_size : TlbSize
  clflush_size : Nat
  cache_alignment : Nat
  address_sizes : AddressSizes
  power_management : List String
  deriving DecidableEq, Repr

/-- `X86_64CpuInfo::new()`: zero/empty defaults. -/
def X86_64CpuInfo.new : X86_64CpuInfo :=
  { processor := 0, vendor_id := "", model_name := "", cpu_family := 0
    model := 0, stepping := 0, microcode := "", cpu_mhz := 0
    cache_size := 0, physical_id := 0, siblings := 0, core_id := 0
    cpu_cores := 0, apicid := 0, initial_apicid := 0, fpu := false
    fpu_exception := false, cpuid_level := 0, wp := false, flags := []
    bugs := [], bogomips := 0, tlb_size := { count := 0, unit := 0 }
    clflush_size := 0, cache_alignment := 0
    address_sizes := { phy := 0, virt := 0 }, power_management := [] }

/-- `CpuInfo` enum from `crates/psh-system/src/cpu`. -/
inductive CpuInfo where
  | X86_64 (l : List X86_64CpuInfo)
  | Arm64 (l : List Arm64CpuInfo)
  | Unsupported (s : String)
  deriving DecidableEq, Repr

/-! ## `crates/psh-system/src/cpu/raw.rs` parsers -/

/-- `parse_unit` from `cpu/raw.rs`. -/
def parse_unit (unit : List Char) : Nat :=
  let t := trimChars unit
  if t = "B".data then 1
  else if t = "KB".data then 1024
  else if t = "MB".data then 1024 * 1024
  else 0

/-- `parse_cache_size` from `cpu/raw.rs`: `num * unit` is a `u32`
multiplication, hence the `% 2 ^ 32`. -/
def parse_cache_size (value : List Char) : Nat :=
  match splitOnceChar ' ' value with
  | none => 0
  | some (num, unit) =>
    let n := (parseUnsigned? (2 ^ 32) (trimChars num)).getD 0
    n * parse_unit unit % 2 ^ 32

/-- `get_bits` closure inside `parse_address_sizes`. -/
def getBits (s : List Char) : Nat :=
  ((splitAsciiWhitespace (trimChars s)).head?.bind
    (fun a => parseUnsigned? (2 ^ 8) a)).getD 0

/-- `parse_address_sizes` from `cpu/raw.rs`. -/
def parse_address_sizes (value : List Char) : AddressSizes :=
  match splitOnceChar ',' value with
  | none => { phy := 0, virt := 0 }
  | some (phy, virt) => { phy := getBits phy, virt := getBits virt }

/-- `parse_tlb_size` from `cpu/raw.rs`. -/
def parse_tlb_size (value : List Char) : TlbSize :=
  match splitOnceChar ' ' value with
  | none => { count := 0, unit := 0 }
  | some (count, unit) =>
    { count := (parseUnsigned? (2 ^ 32) (trimChars count)).getD 0
      unit := if unit = "4K pages".data then 4096 else 0 }

/-- Body of the x86-64 per-line `match key` in
`parse_x86_64_cpu_info`; a line with no `:` or an unknown key leaves the
current record unchanged. -/
def x86UpdateLine (cur : X86_64CpuInfo) (line : String) : X86_64CpuInfo :=
  match splitOnceChar ':' line.data with
  | none => cur
  | some (k, v) =>
    let key := trimChars k
    let value := trimChars v
    if key = "processor".data then
      { cur with processor := (parseUnsigned? (2 ^ 64) value).getD 0 }
    else if key = "vendor_id".data then
      { cur with vendor_id := String.mk value }
    else if key = "model name".data then
      { cur with model_name := String.mk value }
    else if key = "cpu family".data then
      { cur with cpu_family := (parseUnsigned? (2 ^ 64) value).getD 0 }
    else if key = "model".data then
      { cur with model := (parseUnsigned? (2 ^ 64) value).getD 0 }
    else if key = "stepping".data then
      { cur with stepping := (parseUnsigned? (2 ^ 64) value).getD 0 }
    else if key = "microcode".data then
      { cur with microcode := String.mk value }
    else if key = "cpu MHz".data then
      { cur with cpu_mhz := (parseFloat? value).getD 0 }
    else if key = "cache size".data then
      { cur with cache_size := parse_cache_size value }
    else if key = "physical id".data then
      { cur with physical_id := (parseUnsigned? (2 ^ 64) value).getD 0 }
    else if key = "siblings".data then
      { cur with siblings := (parseUnsigned? (2 ^ 64) value).getD 0 }
    else if key = "core id".data then
      { cur with core_id := (parseUnsigned? (2 ^ 64) value).getD 0 }
    else if key = "cpu cores".data then
      { cur with cpu_cores := (parseUnsigned? (2 ^ 64) value).getD 0 }
    else if key = "apicid".data then
      { cur with apicid := (parseUnsigned? (2 ^ 64) value).getD 0 }
    else if key = "initial apicid".data then
      { cur with initial_apicid := (parseUnsigned? (2 ^ 64) value).getD 0 }
    else if key = "fpu".data then
      { cur with fpu := value = "yes".data }
    else if key = "fpu_exception".data then
      { cur with fpu_exception := value = "yes".data }
    else if key = "cpuid level".data then
      { cur with cpuid_level := (parseUnsigned? (2 ^ 64) value).getD 0 }
    else if key = "wp".data then
      { cur with wp := value = "yes".data }
    else if key = "flags".data then
      { cur with flags := (splitAsciiWhitespace value).map String.mk }
    else if key = "bugs".data then
      { cur with bugs := (splitAsciiWhitespace value).map String.mk }
    else if key = "bogomips".data then
      { cur with bogomips := (parseFloat? value).getD 0 }
    else if key = "TLB size".data then
      { cur with tlb_size := parse_tlb_size value }
    else if key = "clflush size".data then
      { cur with clflush_size := (parseUnsigned? (2 ^ 16) value).getD 0 }
    else if key = "cache_alignment".data then
      { cur with cache_alignment := (parseUnsigned? (2 ^ 32) value).getD 0 }
    else if key = "address sizes".data then
      { cur with address_sizes := parse_address_sizes value }
    else if key = "power management".data then
      { cur with power_management := (splitAsciiWhitespace value).map String.mk }
    else cur

/-- The `for line in reader.lines()` loop of `parse_x86_64_cpu_info`:
an empty line pushes the current record and resets it; any other line
updates the current record. -/
def x86Loop : List String → List X86_64CpuInfo → X86_64CpuInfo → List X86_64CpuInfo
  | [], acc, _ => acc
  | l :: ls, acc, cur =>
    if l.data.isEmpty then x86Loop ls (acc ++ [cur]) X86_64CpuInfo.new
    else x86Loop ls acc (x86UpdateLine cur l)

/-- `parse_x86_64_cpu_info` from `cpu/raw.rs`; the successfully read
lines of the file are the input, and the function itself always returns
`Ok`, so the `io::Result` wrapper is omitted. -/
def parse_x86_64_cpu_info (lines : List String) : List X86_64CpuInfo :=
  x86Loop lines [] X86_64CpuInfo.new

/-- Body of the aarch64 per-line `match key` in
`parse_aarch64_cpu_info`. -/
def arm64UpdateLine (cur : Arm64CpuInfo) (line : String) : Arm64CpuInfo :=
  match splitOnceChar ':' line.data with
  | none => cur
  | some (k, v) =>
    let key := trimChars k
    let value := trimChars v
    if key = "processor".data then
      { cur with processor := (parseUnsigned? (2 ^ 64) value).getD 0 }
    else if key = "BogoMIPS".data then
      { cur with bogomips := (parseFloat? value).getD 0 }
    else if key = "Features".data then
      { cur with features := (splitChar ' ' value).map String.mk }
    else if key = "CPU implementer".data then
      { cur with cpu_implementer :=
          (parseHexUnsigned? (2 ^ 16) (trimStartMatches0x value)).getD 0 }
    else if key = "CPU architecture".data then
      { cur with cpu_architecture := (parseUnsigned? (2 ^ 16) value).getD 0 }
    else if key = "CPU variant".data then
      { cur with cpu_variant :=
          (parseHexUnsigned? (2 ^ 16) (trimStartMatches0x value)).getD 0 }
    else if key = "CPU part".data then
      { cur with cpu_part :=
          (parseHexUnsigned? (2 ^ 16) (trimStartMatches0x value)).getD 0 }
    else if key = "CPU revision".data then
      { cur with cpu_revision := (parseUnsigned? (2 ^ 16) value).getD 0 }
    else if key = "address sizes".data then
      { cur with address_sizes := parse_address_sizes value }
    else cur

/-- The line loop of `parse_aarch64_cpu_info`. -/
def arm64Loop : List String → List Arm64CpuInfo → Arm64CpuInfo → List Arm64CpuInfo
  | [], acc, _ => acc
  | l :: ls, acc, cur =>
    if l.data.isEmpty then arm64Loop ls (acc ++ [cur]) Arm64CpuInfo.new
    else arm64Loop ls acc (arm64UpdateLine cur l)

/-- `parse_aarch64_cpu_info` from `cpu/raw.rs`. -/
def parse_aarch64_cpu_info (lines : List String) : List Arm64CpuInfo :=
  arm64Loop lines [] Arm64CpuInfo.new

/-- `do_parse_cpuinfo` from `cpu/raw.rs`.  `file` is the result of
`File::open` + line reading: `none` is the I/O error propagated by `?`,
`some lines` the successfully read lines. -/
def do_parse_cpuinfo (file : Option (List String)) (arch : String) : Option CpuInfo :=
  file.map fun lines =>
    if arch = "x86_64" then CpuInfo.X86_64 (parse_x86_64_cpu_info lines)
    else if arch = "aarch64" then CpuInfo.Arm64 (parse_aarch64_cpu_info lines)
    else CpuInfo.Unsupported ("unsupported architecture " ++ arch)

/-! ## WIT-level CPU types and `get_cpu_info` (`src/op/mod.rs`)

The `cpu::*` records generated from the WIT interface mirror the
`psh-system` structs; the `From` impls in `src/op/mod.rs` copy each field,
with `usize` fields cast `as u32` (truncating, hence `% 2 ^ 32`). -/

structure AddressSizesWit where
  phy : Nat
  virt : Nat
  deriving DecidableEq, Repr

structure TlbSizeWit where
  count : Nat
  unit : Nat
  deriving DecidableEq, Repr

structure Arm64CpuInfoWit where
  processor : Nat
  bogomips : ℚ
  features : List String
  cpu_implementer : Nat
  cpu_architecture : Nat
  cpu_variant : Nat
  cpu_part : Nat
  cpu_revision : Nat
  address_sizes : AddressSizesWit
  deriving DecidableEq, Repr

structure X64CpuInfoWit where
  processor : Nat
  vendor_id : String
  model_name : String
  cpu_family : Nat
  model : Nat
  stepping : Nat
  microcode : String
  cpu_mhz : ℚ
  cache_size : Nat
  physical_id : Nat
  siblings : Nat
  core_id : Nat
  cpu_cores : Nat
  apicid : Nat
  initial_apicid : Nat
  fpu : Bool
  fpu_exception : Bool
  cpuid_level : Nat
  wp : Bool
  flag : List String
  bugs : List String
  bogomips : ℚ
  tlb_size : TlbSizeWit
  clflush_size : Nat
  cache_alignment : Nat
  address_sizes : AddressSizesWit
  power_management : List String
  deriving DecidableEq, Repr

/-- `From<AddressSizes> for cpu::AddressSizes` in `src/op/mod.rs`. -/
def addressSizesToWit (value : AddressSizes) : AddressSizesWit :=
  { phy := value.phy, virt := value.virt }

/-- `From<TlbSize> for cpu::TlbSize` in `src/op/mod.rs`. -/
def tlbSizeToWit (value : TlbSize) : TlbSizeWit :=
  { count := value.count, unit := value.unit }

/-- `From<Arm64CpuInfo> for cpu::Arm64CpuInfo` in `src/op/mod.rs`:
`processor` is `usize as u32`. -/
def arm64ToWit (value : Arm64CpuInfo) : Arm64CpuInfoWit :=
  { processor := value.processor % 2 ^ 32
    bogomips := value.bogomips
    features := value.features
    cpu_implementer := value.cpu_implementer
    cpu_architecture := value.cpu_architecture
    cpu_variant := value.cpu_variant
    cpu_part := value.cpu_part
    cpu_revision := value.cpu_revision
    address_sizes := addressSizesToWit value.address_sizes }

/-- `From<X86_64CpuInfo> for cpu::X64CpuInfo` in `src/op/mod.rs`:
the `usize` fields are cast `as u32`. -/
def x64ToWit (value : X86_64CpuInfo) : X64CpuInfoWit :=
  { processor := value.processor % 2 ^ 32
    vendor_id := value.vendor_id
    model_name := value.model_name
    cpu_family := value.cpu_family % 2 ^ 32
    model := value.model % 2 ^ 32
    stepping := value.stepping % 2 ^ 32
    microcode := value.microcode
    cpu_mhz := value.cpu_mhz
    cache_size := value.cache_size
    physical_id := value.physical_id % 2 ^ 32
    siblings := value.siblings % 2 ^ 32
    core_id := value.core_id % 2 ^ 32
    cpu_cores := value.cpu_cores % 2 ^ 32
    apicid := value.apicid % 2 ^ 32
    initial_apicid := value.initial_apicid % 2 ^ 32
    fpu := value.fpu
    fpu_exception := value.fpu_exception
    cpuid_level := value.cpuid_level % 2 ^ 32
    wp := value.wp
    flag := value.flags
    bugs := value.bugs
    bogomips := value.bogomips
    tlb_size := tlbSizeToWit value.tlb_size
    clflush_size := value.clflush_size
    cache_alignment := value.cache_alignment
    address_sizes := addressSizesToWit value.address_sizes
    power_management := value.power_management }

/-- `cpu::CpuInfo` from the WIT interface (`X64` or `Arm64`; the
unsupported case becomes the inner error of `get_cpu_info`). -/
inductive CpuInfoWit where
  | X64 (l : List X64CpuInfoWit)
  | Arm64 (l : List Arm64CpuInfoWit)
  deriving DecidableEq, Repr

/-- `get_cpu_info` from `src/op/mod.rs`: `parse_cpuinfo!().unwrap()`
panics on an I/O failure (`none`, the outer host-infrastructure
failure); otherwise the parsed info is converted to WIT records, the
`Unsupported` case becoming the inner `Err` with its description
string. -/
def get_cpu_info (file : Option (List String)) (arch : String) :
    Option (Except String CpuInfoWit) :=
  match do_parse_cpuinfo file arch with
  | none => none
  | some cpu_info =>
    some (match cpu_info with
      | .X86_64 x64 => .ok (.X64 (x64.map x64ToWit))
      | .Arm64 arm64 => .ok (.Arm64 (arm64.map arm64ToWit))
      | .Unsupported unsupported => .error unsupported)

/-! ## Memory info and `get_memory_info` (`src/op/mod.rs`)

`parse_meminfo` lives in `crates/psh-system/src/memory`, not among the
provided sources; its result struct is reconstructed from the field
accesses in `get_memory_info` (all `u64`, hence `Nat`), and the read is
an `Option` parameter. -/

structure MemoryInfo where
  mem_total : Nat
  mem_free : Nat
  mem_available : Nat
  buffers : Nat
  cached : Nat
  swap_cached : Nat
  active : Nat
  inactive : Nat
  active_anon : Nat
  inactive_anon : Nat
  active_file : Nat
  inactive_file : Nat
  unevictable : Nat
  mlocked : Nat
  swap_total : Nat
  swap_free : Nat
  dirty : Nat
  writeback : Nat
  anon_pages : Nat
  mapped : Nat
  shmem : Nat
  kreclaimable : Nat
  slab : Nat
  sreclaimable : Nat
  sunreclaim : Nat
  kernel_stack : Nat
  page_tables : Nat
  nfs_unstable : Nat
  bounce : Nat
  writeback_tmp : Nat
  commit_limit : Nat
  committed_as : Nat
  vmalloc_total : Nat
  vmalloc_used : Nat
  vmalloc_chunk : Nat
  percpu : Nat
  cma_total : Nat
  cma_free : Nat
  hardware_corrupted : Nat
  anon_huge_pages : Nat
  shmem_huge_pages : Nat
  shmem_pmd_mapped : Nat
  file_huge_pages : Nat
  file_pmd_mapped : Nat
  huge_pages_total : Nat
  huge_pages_free : Nat
  huge_pages_rsvd : Nat
  huge_pages_surp : Nat
  huge_page_size : Nat
  huge_tlb : Nat
  direct_map4k : Nat
  direct_map2_m : Nat
  direct_map1_g : Nat
  deriving DecidableEq, Repr

/-- `get_memory_info` from `src/op/mod.rs`: `parse_meminfo!().unwrap()`
panics on a failed read (`none`), else the fields are copied one by one
into the WIT `memory::MemoryInfo` record and returned as inner `Ok`. -/
def get_memory_info (readResult : Option MemoryInfo) :
    Option (Except String MemoryInfo) :=
  match readResult with
  | none => none
  | some mem_info =>
    some (Except.ok
      { mem_total := mem_info.mem_total
        mem_free := mem_info.mem_free
        mem_available := mem_info.mem_available
        buffers := mem_info.buffers
        cached := mem_info.cached
        swap_cached := mem_info.swap_cached
        active := mem_info.active
        inactive := mem_info.inactive
        active_anon := mem_info.active_anon
        inactive_anon := mem_info.inactive_anon
        active_file := mem_info.active_file
        inactive_file := mem_info.inactive_file
        unevictable := mem_info.unevictable
        mlocked := mem_info.mlocked
        swap_total := mem_info.swap_total
        swap_free := mem_info.swap_free
        dirty := mem_info.dirty
        writeback := mem_info.writeback
        anon_pages := mem_info.anon_pages
        mapped := mem_info.mapped
        shmem := mem_info.shmem
        kreclaimable := mem_info.kreclaimable
        slab := mem_info.slab
        sreclaimable := mem_info.sreclaimable
        sunreclaim := mem_info.sunreclaim
        kernel_stack := mem_info.kernel_stack
        page_tables := mem_info.page_tables
        nfs_unstable := mem_info.nfs_unstable
        bounce := mem_info.bounce
        writeback_tmp := mem_info.writeback_tmp
        commit_limit := mem_info.commit_limit
        committed_as := mem_info.committed_as
        vmalloc_total := mem_info.vmalloc_total
        vmalloc_used := mem_info.vmalloc_used
        vmalloc_chunk := mem_info.vmalloc_chunk
        percpu := mem_info.percpu
        cma_total := mem_info.cma_total
        cma_free := mem_info.cma_free
        hardware_corrupted := mem_info.hardware_corrupted
        anon_huge_pages := mem_info.anon_huge_pages
        shmem_huge_pages := mem_info.shmem_huge_pages
        shmem_pmd_mapped := mem_info.shmem_pmd_mapped
        file_huge_pages := mem_info.file_huge_pages
        file_pmd_mapped := mem_info.file_pmd_mapped
        huge_pages_total := mem_info.huge_pages_total
        huge_pages_free := mem_info.huge_pages_free
        huge_pages_rsvd := mem_info.huge_pages_rsvd
        huge_pages_surp := mem_info.huge_pages_surp
        huge_page_size := mem_info.huge_page_size
        huge_tlb := mem_info.huge_tlb
        direct_map4k := mem_info.direct_map4k
        direct_map2_m := mem_info.direct_map2_m
        direct_map1_g := mem_info.direct_map1_g })

/-! ## Telemetry export bridge (`src/runtime/data_export.rs`)

`RpcClient` (in `src/services/rpc.rs`) and the `rinfluxdb` line-protocol
encoder are external collaborators not among the provided sources, so:

* the client is modelled by the one observation `export_*` makes of it —
  the result of `instance_id()`, `none` when it cannot be obtained;
* the text encoding built with `LineBuilder` is an abstract encoder
  argument (the spec keeps the serialization out of the core contract);
* a failing `tokio` runtime construction or `send_data` call is the
  `sendOutcome = none` case and yields the outer failure (`none`);
* each embedded export returns the final context, the list of
  `DataRequest`s constructed for and handed toward the transport, and
  the two-level result. -/

/-- Modelled from the spec: the injected transport collaborator
(`RpcClient`), reduced to the result of `instance_id()`. -/
structure RpcClient where
  instanceIdResult : Option String
  deriving DecidableEq, Repr

/-- `DataExportCtx` from `src/runtime/data_export.rs`. -/
structure DataExportCtx where
  rpc_client : Option RpcClient
  deriving DecidableEq, Repr

/-- `MetricMeta` from `src/services/pb` as constructed in
`export_sample`. -/
structure MetricMeta where
  start_time : Nat
  end_time : Nat
  key_type : List (String × String)
  deriving DecidableEq, Repr

/-- `Metadata` from `src/services/pb`; `rtype` embeds the raw-identifier
field `r#type`. -/
structure Metadata where
  rtype : String
  size : Nat
  metric_meta : Option MetricMeta
  deriving DecidableEq, Repr

/-- `DataRequest` from `src/services/pb`; the payload is a byte list. -/
structure DataRequest where
  metadata : Option Metadata
  payload : List Nat
  deriving DecidableEq, Repr

/-- `Sample` from the data-export WIT interface: name, value, tag list,
optional timestamp. -/
structure Sample where
  name : String
  value : ℚ
  tags : List (String × String)
  ts : Option Nat
  deriving DecidableEq, Repr

/-- `Point` from the data-export WIT interface: name, tag list, field
list. -/
structure Point where
  name : String
  tags : List (String × String)
  fields : List (String × ℚ)
  deriving DecidableEq, Repr

/-- `export_bytes` from `src/runtime/data_export.rs`: without a
configured transport it immediately returns outer-Ok/inner-Ok, touching
nothing; otherwise it builds the `file` request and sends it. -/
def export_bytes (ctx : DataExportCtx) (sendOutcome : Option Unit)
    (bytes : List Nat) :
    DataExportCtx × List DataRequest × Option (Except String Unit) :=
  match ctx.rpc_client with
  | none => (ctx, [], some (.ok ()))
  | some _ =>
    let metadata : Metadata :=
      { rtype := "file", size := bytes.length, metric_meta := none }
    let req : DataRequest := { metadata := some metadata, payload := bytes }
    match sendOutcome with
    | none => (ctx, [req], none)
    | some _ => (ctx, [req], some (.ok ()))

/-- `export_sample` from `src/runtime/data_export.rs`: pushes the
`("instance_id", _)` tag (value `"unknown"` when `instance_id()` fails)
onto the sample's tags, encodes name/value/tags, and builds the
`metric` request whose metadata carries `start_time = end_time =
sample.ts.unwrap_or(0)` and types every tag key as `"String"`. -/
def export_sample (enc : String → ℚ → List (String × String) → List Nat)
    (ctx : DataExportCtx) (sendOutcome : Option Unit) (sample : Sample) :
    DataExportCtx × List DataRequest × Option (Except String Unit) :=
  match ctx.rpc_client with
  | none => (ctx, [], some (.ok ()))
  | some rpc_client =>
    let instance_id := rpc_client.instanceIdResult.getD "unknown"
    let tags := sample.tags ++ [("instance_id", instance_id)]
    let payload := enc sample.name sample.value tags
    let metadata : Metadata :=
      { rtype := "metric"
        size := payload.length
        metric_meta := some
          { start_time := sample.ts.getD 0
            end_time := sample.ts.getD 0
            key_type := tags.map (fun kv => (kv.1, "String")) } }
    let req : DataRequest := { metadata := some metadata, payload := payload }
    match sendOutcome with
    | none => (ctx, [req], none)
    | some _ => (ctx, [req], some (.ok ()))

/-- `export_point` from `src/runtime/data_export.rs`: pushes the
`("instance_id", _)` tag onto the point's tags, encodes
name/tags/fields, and builds the `measurement` request (no metric
metadata). -/
def export_point
    (enc : String → List (String × String) → List (String × ℚ) → List Nat)
    (ctx : DataExportCtx) (sendOutcome : Option Unit) (point : Point) :
    DataExportCtx × List DataRequest × Option (Except String Unit) :=
  match ctx.rpc_client with
  | none => (ctx, [], some (.ok ()))
  | some rpc_client =>
    let instance_id := rpc_client.instanceIdResult.getD "unknown"
    let tags := point.tags ++ [("instance_id", instance_id)]
    let payload := enc point.name tags point.fields
    let metadata : Metadata :=
      { rtype := "measurement", size := payload.length, metric_meta := none }
    let req : DataRequest := { metadata := some metadata, payload := payload }
    match sendOutcome with
    | none => (ctx, [req], none)
    | some _ => (ctx, [req], some (.ok ()))

/-! ## Counter and counter-group lifecycle
(`crates/op/host-op-perf/src/counting`)

The wrappers in `single/raw.rs` and `group/raw.rs` delegate to
`perf_event_rs`, whose implementation is not among the provided
sources; the state machine is therefore modelled from the spec
(sections 3, 4.1, 4.2 and 8 of `spec.md`). -/

/-- `CounterStat`: a point-in-time read — raw count, `time_enabled`
(wall time the counter was schedulable), `time_running` (wall time it
was actually on the PMU). -/
structure CounterStat where
  count : Nat
  time_enabled : Nat
  time_running : Nat
  deriving DecidableEq, Repr

/-- Modelled from the spec: the kernel-side reading of one counter.
`time_running` is the portion of the schedulable time actually spent on
the PMU, so the reading stores the running time plus the extra
(schedulable but multiplexed-out) remainder, and
`time_enabled = timeRunning + timeExtraEnabled`. -/
structure KernelReading where
  count : Nat
  timeRunning : Nat
  timeExtraEnabled : Nat
  deriving DecidableEq, Repr

/-- The `CounterStat` produced from a kernel reading: raw values only. -/
def KernelReading.toStat (r : KernelReading) : CounterStat :=
  { count := r.count
    time_enabled := r.timeRunning + r.timeExtraEnabled
    time_running := r.timeRunning }

/-- Modelled from the spec: a single `Counter` — one kernel descriptor
bound to an immutable (target, config) pair, with the kernel-side
enabled flag and current reading. -/
structure Counter where
  target : Nat
  config : Nat
  descriptor : Nat
  kernelEnabled : Bool
  reading : KernelReading
  deriving DecidableEq, Repr

/-- `counter_stat` (`single/raw.rs` delegating to
`perf_event_rs::counting::Counter::stat`): modelled from the spec —
reads count and the two timing fields without altering counter state,
never applying the `count * time_enabled / time_running` scaling. -/
def counter_stat (counter : Counter) : Counter × CounterStat :=
  (counter, counter.reading.toStat)

/-- `CounterGuard` (opaque member handle carrying a stable
`event_id`). -/
structure CounterGuard where
  event_id : Nat
  deriving DecidableEq, Repr

/-- Modelled from the spec: a Building `CounterGroup` — the `event_id`s
admitted so far and the next id to assign (ids are assigned
monotonically, so every admitted id is below `nextId`). -/
structure CounterGroup where
  members : List Nat
  nextId : Nat
  deriving DecidableEq, Repr

/-- Modelled from the spec: the frozen successor of a `CounterGroup`;
membership is exactly the admitted ids. -/
structure FixedCounterGroup where
  members : List Nat
  deriving DecidableEq, Repr

/-- `counter_group_new` (`group/raw.rs`): a fresh Building group with no
members. -/
def counter_group_new : CounterGroup :=
  { members := [], nextId := 0 }

/-- Well-formedness maintained by the Building group: admitted ids are
pairwise distinct and below the next id to assign. -/
def CounterGroup.wf (g : CounterGroup) : Prop :=
  (∀ id ∈ g.members, id < g.nextId) ∧ g.members.Nodup

instance (g : CounterGroup) : Decidable g.wf := by
  unfold CounterGroup.wf
  infer_instance

/-- `counter_group_add_member` (`group/raw.rs`): modelled from the spec
— admission during Building assigns the next `event_id` and returns the
guard carrying it. -/
def counter_group_add_member (counter_group : CounterGroup) :
    CounterGroup × CounterGuard :=
  ({ members := counter_group.members ++ [counter_group.nextId]
     nextId := counter_group.nextId + 1 },
   { event_id := counter_group.nextId })

/-- `counter_group_enable` (`group/raw.rs`): modelled from the spec —
consumes the Building group, arms the whole group, and freezes
membership. -/
def counter_group_enable (counter_group : CounterGroup) : FixedCounterGroup :=
  { members := counter_group.members }

/-- `counter_group_into_fixed` (`group/raw.rs`): modelled from the spec
— the same irreversible transition without arming hardware. -/
def counter_group_into_fixed (counter_group : CounterGroup) : FixedCounterGroup :=
  { members := counter_group.members }

/-- Modelled from the spec: the two lifecycle states of one group. -/
inductive PerfGroupState where
  | building (g : CounterGroup)
  | fixed (f : FixedCounterGroup)
  deriving DecidableEq, Repr

/-- Modelled from the spec: an `add_member` request at the lifecycle
level — only the Building state offers the method
(`FixedCounterGroup` has no `add_member`), so the request cannot
succeed after the transition. -/
def groupAddMemberReq : PerfGroupState → Option (PerfGroupState × CounterGuard)
  | .building g =>
    some (.building (counter_group_add_member g).1, (counter_group_add_member g).2)
  | .fixed _ => none

/-- Modelled from the spec: an `enable()`/`into_fixed()` transition
request at the lifecycle level — both consume the Building group, so
the transition happens at most once. -/
def groupTransitionReq : PerfGroupState → Option PerfGroupState
  | .building g => some (.fixed (counter_group_enable g))
  | .fixed _ => none

/-- `CounterGroupStat`: one entry per member `event_id`. -/
structure CounterGroupStat where
  member_results : List (Nat × CounterStat)
  deriving DecidableEq, Repr

/-- `fixed_counter_group_stat` (`group/raw.rs`): modelled from the spec
— reads every member's kernel reading under one shared timing
baseline, keyed per `event_id`. -/
def fixed_counter_group_stat (fixed_counter_group : FixedCounterGroup)
    (kernel : Nat → KernelReading) : CounterGroupStat :=
  { member_results :=
      fixed_counter_group.members.map (fun id => (id, (kernel id).toStat)) }

/-! ## Sandbox builder and import resolution (`src/main.rs`)

`PshEngineBuilder` and `PshEngine::run` live in `src/runtime/mod.rs`,
not among the provided sources; `src/main.rs` (lines 97-106) shows the
builder surface (`allow_perf_op`, `allow_system_op`, WASI baseline
settings), and the fail-fast import-resolution boundary is modelled
from the spec (section 4.3). -/

/-- The two independently grantable capability domains of the claims. -/
inductive CapabilityDomain where
  | perf
  | system
  deriving DecidableEq, Repr

/-- Modelled from the spec: the grant flags accepted by
`PshEngineBuilder` (`allow_perf_op`, `allow_system_op`); default is
deny-all. -/
structure PshEngineBuilder where
  allow_perf_op : Bool
  allow_system_op : Bool
  deriving DecidableEq, Repr

/-- Whether a domain was granted at sandbox build time. -/
def grantedDomain (b : PshEngineBuilder) : CapabilityDomain → Bool
  | .perf => b.allow_perf_op
  | .system => b.allow_system_op

/-- Modelled from the spec: a component's declared imports, by
capability domain. -/
structure Component where
  imports : List CapabilityDomain
  deriving DecidableEq, Repr

/-- Modelled from the spec: import resolution strictly against the
granted domains — an import from an ungranted domain fails
instantiation with `ImportResolutionError`. -/
def resolveImports (b : PshEngineBuilder) (c : Component) : Except String Unit :=
  if c.imports.all (fun d => grantedDomain b d) then .ok ()
  else .error "ImportResolutionError"

/-- Modelled from the spec: `engine.run(component)` — import resolution
happens before any guest code executes; the second component is the
trace of executed guest steps, empty when instantiation fails. -/
def engine_run (b : PshEngineBuilder) (c : Component)
    (guest : Unit → List String) : Except String Unit × List String :=
  match resolveImports b c with
  | .error e => (.error e, [])
  | .ok _ => (.ok (), guest ())

/-! ## The aarch64 cpuinfo fixture

Modelled from the spec: the t-head aarch64 fixture
(`test_resources/arch/aarch64/t-head/cpuinfo`, not among the provided
sources) — 128 logical CPUs, each block reporting BogoMIPS 100.00,
implementer 0x41, architecture 8, part 0xd49, 48/48 address-size bits
and the 44-entry feature list, blocks separated by empty lines. -/

def armFeatStr : String :=
  "fp asimd evtstrm aes pmull sha1 sha2 crc32 atomics fphp asimdhp cpuid asimdrdm jscvt fcma lrcpc dcpop sha3 sm3 sm4 asimddp sha512 sve asimdfhm dit uscat ilrcpc flagm ssbs sb dcpodp sve2 sveaes svepmull svebitperm svesha3 svesm4 flagm2 frint svei8mm svebf16 i8mm bf16 dgh"

/-- One per-CPU block of the fixture, `p` the processor number. -/
def armBlock (p : String) : List String :=
  [ "processor\t: " ++ p
  , "BogoMIPS\t: 100.00"
  , "Features\t: " ++ armFeatStr
  , "CPU implementer\t: 0x41"
  , "CPU architecture: 8"
  , "CPU variant\t: 0x0"
  , "CPU part\t: 0xd49"
  , "CPU revision\t: 0"
  , "address sizes\t: 48 bits physical, 48 bits virtual"
  , "" ]

/-- The whole 128-CPU fixture. -/
def armFixture : List String :=
  (List.range 128).flatMap (fun i => armBlock (Nat.repr i))

/-- The feature list of every fixture CPU, as parsed. -/
def armFeaturesList : List String :=
  ["fp", "asimd", "evtstrm", "aes", "pmull", "sha1", "sha2", "crc32",
   "atomics", "fphp", "asimdhp", "cpuid", "asimdrdm", "jscvt", "fcma",
   "lrcpc", "dcpop", "sha3", "sm3", "sm4", "asimddp", "sha512", "sve",
   "asimdfhm", "dit", "uscat", "ilrcpc", "flagm", "ssbs", "sb", "dcpodp",
   "sve2", "sveaes", "svepmull", "svebitperm", "svesha3", "svesm4",
   "flagm2", "frint", "svei8mm", "svebf16", "i8mm", "bf16", "dgh"]

/-- The expected record for processor 126 of the fixture. -/
def armCpu126 : Arm64CpuInfo :=
  { processor := 126, bogomips := 100, features := armFeaturesList
    cpu_implementer := 65, cpu_architecture := 8, cpu_variant := 0
    cpu_part := 3401, cpu_revision := 0
    address_sizes := { phy := 48, virt := 48 } }

/-! ## Theorems -/

/-- C1: every call to `export_bytes`, `export_sample` or `export_point`
on a `DataExportCtx` whose transport is not configured returns success
at both result layers (outer Ok wrapping inner Ok), contacts no
transport (no `DataRequest` is constructed or sent) and leaves the
context unchanged. -/
theorem export_noop_without_transport
    (ctx : DataExportCtx) (send : Option Unit)
    (enc : String → ℚ → List (String × String) → List Nat)
    (enc2 : String → List (String × String) → List (String × ℚ) → List Nat)
    (bytes : List Nat) (s : Sample) (p : Point)
    (h : ctx.rpc_client = none) :
    export_bytes ctx send bytes = (ctx, [], some (.ok ())) ∧
    export_sample enc ctx send s = (ctx, [], some (.ok ())) ∧
    export_point enc2 ctx send p = (ctx, [], some (.ok ())) := by
  simp [export_bytes, export_sample, export_point, h]

/-- Witness for C1 at a concrete unconfigured context. -/
theorem export_noop_without_transport_witness :
    (DataExportCtx.mk none).rpc_client = none ∧
    (export_bytes (DataExportCtx.mk none) (some ()) [1, 2] =
        (DataExportCtx.mk none, [], some (.ok ())) ∧
      export_sample (fun _ _ t => [t.length]) (DataExportCtx.mk none) (some ())
          { name := "m", value := 1, tags := [("k", "v")], ts := some 7 } =
        (DataExportCtx.mk none, [], some (.ok ())) ∧
      export_point (fun _ t _ => [t.length]) (DataExportCtx.mk none) (some ())
          { name := "q", tags := [("a", "b")], fields := [("f", 2)] } =
        (DataExportCtx.mk none, [], some (.ok ()))) :=
  ⟨rfl, export_noop_without_transport (DataExportCtx.mk none) (some ())
    (fun _ _ t => [t.length]) (fun _ t _ => [t.length]) [1, 2]
    { name := "m", value := 1, tags := [("k", "v")], ts := some 7 }
    { name := "q", tags := [("a", "b")], fields := [("f", 2)] } rfl⟩

/-- C2: admission into a well-formed Building group yields a guard with
a fresh, stable `event_id` (well-formedness — distinct ids, all below
the next id — is preserved, the new id was not in the group, and
membership grows exactly by it); `enable()`/`into_fixed()` freeze
exactly the admitted membership; and at the lifecycle level neither
`add_member` nor a second transition can succeed once the group is
fixed. -/
theorem counter_group_admission_unique_and_frozen
    (g : CounterGroup) (hg : g.wf) :
    ((counter_group_add_member g).1).wf ∧
    (counter_group_add_member g).2.event_id ∉ g.members ∧
    (counter_group_add_member g).1.members
      = g.members ++ [(counter_group_add_member g).2.event_id] ∧
    (counter_group_enable g).members = g.members ∧
    (counter_group_into_fixed g).members = g.members ∧
    (∀ f, groupAddMemberReq (.fixed f) = none) ∧
    (∀ f, groupTransitionReq (.fixed f) = none) ∧
    counter_group_new.wf := by
  obtain ⟨hlt, hnd⟩ := hg
  have hnotmem : g.nextId ∉ g.members := fun hmem =>
    lt_irrefl g.nextId (hlt g.nextId hmem)
  refine ⟨⟨?_, ?_⟩, hnotmem, rfl, rfl, rfl, fun f => rfl, fun f => rfl, ?_⟩
  · intro id hid
    simp only [counter_group_add_member] at hid ⊢
    rcases List.mem_append.1 hid with hl | hr
    · exact Nat.lt_succ_of_lt (hlt id hl)
    · simp only [List.mem_singleton] at hr
      omega
  · simp only [counter_group_add_member]
    rw [List.nodup_append]
    refine ⟨hnd, List.nodup_singleton _, ?_⟩
    intro x hx hx'
    simp only [List.mem_singleton] at hx'
    subst hx'
    exact hnotmem hx
  · exact ⟨by simp [counter_group_new], by simp [counter_group_new]⟩

/-- Witness for C2 at a concrete well-formed two-member group. -/
theorem counter_group_admission_unique_and_frozen_witness :
    (CounterGroup.mk [0, 1] 2).wf ∧
    (((counter_group_add_member (CounterGroup.mk [0, 1] 2)).1).wf ∧
      (counter_group_add_member (CounterGroup.mk [0, 1] 2)).2.event_id ∉
        (CounterGroup.mk [0, 1] 2).members ∧
      (counter_group_add_member (CounterGroup.mk [0, 1] 2)).1.members
        = (CounterGroup.mk [0, 1] 2).members
          ++ [(counter_group_add_member (CounterGroup.mk [0, 1] 2)).2.event_id] ∧
      (counter_group_enable (CounterGroup.mk [0, 1] 2)).members
        = (CounterGroup.mk [0, 1] 2).members ∧
      (counter_group_into_fixed (CounterGroup.mk [0, 1] 2)).members
        = (CounterGroup.mk [0, 1] 2).members ∧
      (∀ f, groupAddMemberReq (.fixed f) = none) ∧
      (∀ f, groupTransitionReq (.fixed f) = none) ∧
      counter_group_new.wf) :=
  ⟨by decide, counter_group_admission_unique_and_frozen
    (CounterGroup.mk [0, 1] 2) (by decide)⟩

/-- C3: a component importing a function from an ungranted capability
domain (here the performance domain, withheld) fails instantiation with
`ImportResolutionError` before any guest code executes: the run result
is the outer error and the trace of executed guest steps is empty. -/
theorem ungranted_import_fails_before_guest_runs
    (b : PshEngineBuilder) (c : Component) (guest : Unit → List String)
    (hperf : b.allow_perf_op = false)
    (himp : CapabilityDomain.perf ∈ c.imports) :
    engine_run b c guest = (.error "ImportResolutionError", []) := by
  have hall : c.imports.all (fun d => grantedDomain b d) = false :=
    List.all_eq_false.2 ⟨.perf, himp, by simp [grantedDomain, hperf]⟩
  simp [engine_run, resolveImports, hall]

/-- Witness for C3: perf withheld, a component importing perf, a guest
that would record a step if it ran. -/
theorem ungranted_import_fails_before_guest_runs_witness :
    (PshEngineBuilder.mk false true).allow_perf_op = false ∧
    CapabilityDomain.perf ∈ (Component.mk [.perf, .system]).imports ∧
    engine_run (PshEngineBuilder.mk false true) (Component.mk [.perf, .system])
      (fun _ => ["guest-step"]) = (.error "ImportResolutionError", []) :=
  ⟨rfl, by decide, ungranted_import_fails_before_guest_runs
    (PshEngineBuilder.mk false true) (Component.mk [.perf, .system])
    (fun _ => ["guest-step"]) rfl (by decide)⟩

/-- C5: `stat()` returns the raw count and the two timing fields
without altering any counter state (target, config, descriptor and
kernel-side enabled status included), and never applies the
`count * time_enabled / time_running` scaling — every returned field is
the raw kernel value. -/
theorem counter_stat_preserves_state_raw_values (c : Counter) :
    (counter_stat c).1 = c ∧
    (counter_stat c).2.count = c.reading.count ∧
    (counter_stat c).2.time_enabled
      = c.reading.timeRunning + c.reading.timeExtraEnabled ∧
    (counter_stat c).2.time_running = c.reading.timeRunning :=
  ⟨rfl, rfl, rfl, rfl⟩

/-- C6: for a `FixedCounterGroup` produced by `enable()`, every member
entry of an immediately following `stat()` satisfies
`time_running ≤ time_enabled` and `count ≥ 0`. -/
theorem fixed_group_stat_time_bounds
    (g : CounterGroup) (kernel : Nat → KernelReading) (e : Nat × CounterStat)
    (he : e ∈ (fixed_counter_group_stat (counter_group_enable g)
      kernel).member_results) :
    e.2.time_running ≤ e.2.time_enabled ∧ 0 ≤ e.2.count := by
  simp only [fixed_counter_group_stat, counter_group_enable,
    List.mem_map] at he
  obtain ⟨id, _, rfl⟩ := he
  simp [KernelReading.toStat]

/-- Witness for C6 at a concrete one-member group with a multiplexed
reading. -/
theorem fixed_group_stat_time_bounds_witness :
    ((126, ({ count := 3, time_enabled := 6, time_running := 4 } : CounterStat)) ∈
      (fixed_counter_group_stat (counter_group_enable (CounterGroup.mk [126] 127))
        (fun _ => { count := 3, timeRunning := 4, timeExtraEnabled := 2 })).member_results) ∧
    ((4 : Nat) ≤ 6 ∧ (0 : Nat) ≤ 3) :=
  ⟨by decide, fixed_group_stat_time_bounds (CounterGroup.mk [126] 127)
    (fun _ => { count := 3, timeRunning := 4, timeExtraEnabled := 2 })
    (126, { count := 3, time_enabled := 6, time_running := 4 }) (by decide)⟩

/-- C7: on a host whose architecture is neither `x86_64` nor `aarch64`,
`get_cpu_info` returns an outer success carrying the inner
domain-specific error with its human-readable description, not an outer
host-infrastructure failure. -/
theorem get_cpu_info_unsupported_arch_inner_error
    (lines : List String) (arch : String)
    (h1 : arch ≠ "x86_64") (h2 : arch ≠ "aarch64") :
    get_cpu_info (some lines) arch =
      some (.error ("unsupported architecture " ++ arch)) := by
  simp [get_cpu_info, do_parse_cpuinfo, h1, h2]

/-- Witness for C7 at `arch = "riscv64"`. -/
theorem get_cpu_info_unsupported_arch_inner_error_witness :
    ("riscv64" : String) ≠ "x86_64" ∧ ("riscv64" : String) ≠ "aarch64" ∧
    get_cpu_info (some []) "riscv64" =
      some (.error "unsupported architecture riscv64") :=
  ⟨by decide, by decide,
    get_cpu_info_unsupported_arch_inner_error [] "riscv64"
      (by decide) (by decide)⟩

/-- C8: when the underlying `/proc` read fails, `get_cpu_info` and
`get_memory_info` panic (the outer host-infrastructure failure,
embedded as `none`) instead of returning the inner domain error; and in
every non-panicking execution `get_memory_info` returns inner `Ok` —
its inner error branch is never taken. -/
theorem proc_read_failure_panics_memory_inner_ok :
    (∀ arch, get_cpu_info none arch = none) ∧
    get_memory_info none = none ∧
    (∀ m, ∃ v, get_memory_info (some m) = some (Except.ok v)) :=
  ⟨fun _ => rfl, rfl, fun _ => ⟨_, rfl⟩⟩

/-- C10: with a transport configured, `export_sample` and
`export_point` append exactly one extra tag `("instance_id", id)` —
`"unknown"` when the id cannot be obtained — to the guest-supplied tag
list before encoding, so the encoder receives the guest tags plus that
one tag; the `export_sample` envelope additionally sets
`start_time = end_time = sample.ts.unwrap_or(0)` and labels every tag
key's type `"String"`. -/
theorem export_appends_instance_id_tag
    (enc : String → ℚ → List (String × String) → List Nat)
    (enc2 : String → List (String × String) → List (String × ℚ) → List Nat)
    (ctx : DataExportCtx) (rpc : RpcClient) (send : Option Unit)
    (s : Sample) (p : Point)
    (h : ctx.rpc_client = some rpc) :
    (rpc.instanceIdResult = none →
      rpc.instanceIdResult.getD "unknown" = "unknown") ∧
    (s.tags ++ [("instance_id", rpc.instanceIdResult.getD "unknown")]).length
      = s.tags.length + 1 ∧
    (export_sample enc ctx send s).2.1 =
      [{ metadata := some
           { rtype := "metric"
             size := (enc s.name s.value
               (s.tags ++ [("instance_id",
                 rpc.instanceIdResult.getD "unknown")])).length
             metric_meta := some
               { start_time := s.ts.getD 0
                 end_time := s.ts.getD 0
                 key_type := (s.tags ++ [("instance_id",
                   rpc.instanceIdResult.getD "unknown")]).map
                     (fun kv => (kv.1, "String")) } }
         payload := enc s.name s.value
           (s.tags ++ [("instance_id", rpc.instanceIdResult.getD "unknown")]) }] ∧
    (export_point enc2 ctx send p).2.1 =
      [{ metadata := some
           { rtype := "measurement"
             size := (enc2 p.name
               (p.tags ++ [("instance_id",
                 rpc.instanceIdResult.getD "unknown")]) p.fields).length
             metric_meta := none }
         payload := enc2 p.name
           (p.tags ++ [("instance_id", rpc.instanceIdResult.getD "unknown")])
           p.fields }] := by
  refine ⟨fun hid => by simp [hid], by simp, ?_, ?_⟩ <;>
    cases send <;> simp [export_sample, export_point, h]

/-- Witness for C10: a configured transport whose `instance_id()`
fails, a one-tag sample with a timestamp, a one-tag point; the encoder
records the tag-list length. -/
theorem export_appends_instance_id_tag_witness :
    (DataExportCtx.mk (some (RpcClient.mk none))).rpc_client
      = some (RpcClient.mk none) ∧
    ((RpcClient.mk none).instanceIdResult = none →
      (RpcClient.mk none).instanceIdResult.getD "unknown" = "unknown") ∧
    ([("k", "v")] ++ [("instance_id", "unknown")]).length = 2 ∧
    (export_sample (fun _ _ t => [t.length])
        (DataExportCtx.mk (some (RpcClient.mk none))) (some ())
        { name := "m", value := 1, tags := [("k", "v")], ts := some 7 }).2.1 =
      [{ metadata := some
           { rtype := "metric", size := 1
             metric_meta := some
               { start_time := 7, end_time := 7
                 key_type := [("k", "String"), ("instance_id", "String")] } }
         payload := [2] }] ∧
    (export_point (fun _ t _ => [t.length])
        (DataExportCtx.mk (some (RpcClient.mk none))) (some ())
        { name := "q", tags := [("a", "b")], fields := [("f", 2)] }).2.1 =
      [{ metadata := some
           { rtype := "measurement", size := 1, metric_meta := none }
         payload := [2] }] := by
  have h := export_appends_instance_id_tag (fun _ _ t => [t.length])
    (fun _ t _ => [t.length]) (DataExportCtx.mk (some (RpcClient.mk none)))
    (RpcClient.mk none) (some ())
    { name := "m", value := 1, tags := [("k", "v")], ts := some 7 }
    { name := "q", tags := [("a", "b")], fields := [("f", 2)] } rfl
  exact ⟨rfl, h.1, h.2.1, h.2.2.1, h.2.2.2⟩

/-- Helper for C9: the x86-64 line loop appends one record per empty
line seen. -/
theorem x86Loop_length (ls : List String) :
    ∀ (acc : List X86_64CpuInfo) (cur : X86_64CpuInfo),
      (x86Loop ls acc cur).length
        = acc.length + ls.countP (fun l => l.data.isEmpty) := by
  induction ls with
  | nil => intro acc cur; simp [x86Loop]
  | cons l ls ih =>
    intro acc cur
    by_cases h : l.data.isEmpty
    · simp [x86Loop, h, ih, List.countP_cons]
      omega
    · simp [x86Loop, h, ih, List.countP_cons]

/-- Helper for C9: the aarch64 line loop appends one record per empty
line seen. -/
theorem arm64Loop_length (ls : List String) :
    ∀ (acc : List Arm64CpuInfo) (cur : Arm64CpuInfo),
      (arm64Loop ls acc cur).length
        = acc.length + ls.countP (fun l => l.data.isEmpty) := by
  induction ls with
  | nil => intro acc cur; simp [arm64Loop]
  | cons l ls ih =>
    intro acc cur
    by_cases h : l.data.isEmpty
    · simp [arm64Loop, h, ih, List.countP_cons]
      omega
    · simp [arm64Loop, h, ih, List.countP_cons]

/-- C9: both cpuinfo parsers append a per-CPU record exactly when an
empty line is encountered (the result has one record per empty input
line), so a final block not followed by an empty line is silently
omitted; and an unparseable numeric field value is replaced by the zero
default instead of causing an error (shown for a decimal field, a hex
field and `parse_cache_size`). -/
theorem parser_appends_only_on_empty_line :
    (∀ lines, (parse_x86_64_cpu_info lines).length
      = lines.countP (fun l => l.data.isEmpty)) ∧
    (∀ lines, (parse_aarch64_cpu_info lines).length
      = lines.countP (fun l => l.data.isEmpty)) ∧
    parse_x86_64_cpu_info ["processor\t: 7"] = [] ∧
    parse_aarch64_cpu_info ["processor\t: 7"] = [] ∧
    parse_x86_64_cpu_info ["processor\t: 12abc", "siblings\t: 4", ""]
      = [{ X86_64CpuInfo.new with siblings := 4 }] ∧
    parse_aarch64_cpu_info ["CPU implementer\t: 0xZW", ""] = [Arm64CpuInfo.new] ∧
    parse_cache_size "12abc KB".data = 0 := by
  refine ⟨fun lines => ?_, fun lines => ?_,
    by decide, by decide, by decide, by decide, by decide⟩
  · simpa using x86Loop_length lines [] X86_64CpuInfo.new
  · simpa using arm64Loop_length lines [] Arm64CpuInfo.new

set_option maxRecDepth 100000 in
/-- C4: on the 128-CPU aarch64 fixture, `get_cpu_info` returns outer
and inner success with the list produced by `parse_aarch64_cpu_info`
converted to WIT records; that list has exactly 128 per-CPU entries,
and the entry at processor index 126 has `cpu_implementer` 65,
`cpu_part` 3401, `cpu_architecture` 8, bogomips 100.0 and address
sizes 48/48 — at the parser level and after the WIT conversion. -/
theorem arm64_fixture_cpu_info :
    get_cpu_info (some armFixture) "aarch64" =
      some (.ok (.Arm64 ((parse_aarch64_cpu_info armFixture).map arm64ToWit))) ∧
    (parse_aarch64_cpu_info armFixture).length = 128 ∧
    (parse_aarch64_cpu_info armFixture)[126]? = some armCpu126 ∧
    ((parse_aarch64_cpu_info armFixture).map arm64ToWit)[126]?
      = some (arm64ToWit armCpu126) := by
  have h126 : (parse_aarch64_cpu_info armFixture)[126]? = some armCpu126 := by
    decide
  refine ⟨rfl, by decide, h126, ?_⟩
  rw [List.getElem?_map, h126]
  rfl
